import Mathlib

/-!
Verification of `src/evcxr/src/child_process.rs` (the `ChildProcess`
supervisor) against its natural-language specification.

The Rust code is shallowly embedded: the supervisor's state becomes an
explicit record, fallible operations return `Except`, OS interactions
(spawn outcome, write/flush results, wait results) are passed in as
explicit parameters, and the background stderr-forwarder thread is
modelled as a small interleaved transition system.
-/

namespace ChildProcessModel

/-- The error type of the crate. Its definition (`errors.rs`) is not part
of the sources under analysis. Modelled from the spec: error values are a
single discriminated kind `SubprocessTerminated(message)`, plus plain
message-carrying errors (`bail!` and the `From<io::Error>` conversion used
by the `?` operator produce a plain message, spec section 7: "Plain I/O
errors ... are surfaced as-is"). -/
inductive Error where
  | Message : String → Error
  | SubprocessTerminated : String → Error
  deriving DecidableEq, Repr

/-- The `?` operator's conversion of a raw `std::io::Error` (represented
by its display string) into the crate's `Error`. Modelled from the spec:
plain I/O errors are surfaced as-is (as a message), not as a
`SubprocessTerminated` diagnosis. -/
def ioErrorToError (e : String) : Error := Error.Message e

/-- A launch configuration: `std::process::Command` (argv, environment,
working directory). Stored behind `Arc<Mutex<..>>` in the Rust code; the
`Arc` sharing is modelled by value equality of this record. -/
structure Command where
  argv : List String
  env : List (String × String)
  cwd : Option String
  deriving DecidableEq, Repr

/-- An OS exit status: the string that `{}` formats, plus the Unix signal
that killed the process, when one did (used only by the macOS branch). -/
structure ExitStatus where
  display : String
  signal : Option Nat
  deriving DecidableEq, Repr

/-- Result of `Child::wait` / the OS reporting an exit. -/
inductive WaitResult where
  | ok : ExitStatus → WaitResult
  | err : String → WaitResult
  deriving DecidableEq, Repr

/-- One item produced by the `std::io::Lines` iterator over the child's
stdout: either a line (`Ok`) or an underlying read error (`Err`,
represented by its display string). -/
inductive LineItem where
  | ok : String → LineItem
  | err : String → LineItem
  deriving DecidableEq, Repr

/-- The pipes and handle obtained from a successful `Command::spawn`:
presence of the stdin write end, the sequence of items the stdout `Lines`
iterator will yield, and whether the process has already exited (with
which status) as observed by `try_wait`. -/
structure RawChild where
  stdinPipe : Option Unit
  stdoutItems : List LineItem
  exited : Option ExitStatus
  deriving DecidableEq, Repr

/-- The `ChildProcess` struct: process handle (its observable exit
state), the stdout line iterator's remaining items, the optional stdin
write end ("Only none while in drop"), and the shared launch command and
stderr sink (the `Arc` identities are modelled by the stored values). -/
structure ChildProcess where
  exited : Option ExitStatus
  stdout : List LineItem
  stdin : Option Unit
  command : Command
  stderr_sender : Nat
  deriving DecidableEq, Repr

/-! ### `BufRead::lines` semantics

`recv_line` pulls from `BufRead::lines(BufReader::new(child_stdout))`.
For a stream whose full byte content is known (the child wrote everything
and closed the pipe), the iterator yields each segment up to and
including a `'\n'` with the `'\n'` (and a preceding `'\r'`) stripped, and
yields a final unterminated segment, if nonempty, as a line too. -/

/-- Strip one trailing carriage return, as `Lines` does after removing
the newline byte. -/
def stripCR (l : List Char) : List Char :=
  match l.getLast? with
  | some c => if c = '\r' then l.dropLast else l
  | none => l

/-- Accumulating worker for `linesOfClosedStream`: `acc` holds the bytes
of the current line read so far (in order). At end of stream a nonempty
`acc` is yielded without newline stripping, exactly as `read_line`
returns the remaining bytes at EOF. -/
def linesAux (acc : List Char) : List Char → List String
  | [] => if acc.isEmpty then [] else [⟨acc⟩]
  | c :: rest =>
    if c = '\n' then ⟨stripCR acc⟩ :: linesAux [] rest
    else linesAux (acc ++ [c]) rest

/-- The full sequence of lines that `BufRead::lines` yields over a closed
byte stream. -/
def linesOfClosedStream (s : String) : List String :=
  linesAux [] s.toList

/-- The stdout item sequence for a child that wrote `s` to stdout and
closed it, with no underlying read errors. -/
def stdoutItemsOfClosedStream (s : String) : List LineItem :=
  (linesOfClosedStream s).map LineItem.ok

/-! ### Termination diagnosis (`get_termination_error`) -/

/-- The loop `while let Some(Ok(line)) = self.stdout.next()`: drains
remaining stdout items into `content`, pushing each line and a `'\n'`,
stopping at end or at the first `Err` item. -/
def drainContent : List LineItem → String
  | [] => ""
  | LineItem.ok line :: rest => line ++ "\n" ++ drainContent rest
  | LineItem.err _ :: _ => ""

/-- The targeted macOS signal-9 remediation message. -/
def signal9Message : String :=
  "Subprocess terminated with signal 9. This is known to happen when evcxr is installed via a Homebrew shell under emulation. Try installing rustup and evcxr without using Homebrew and see if that helps."

/-- `ChildProcess::get_termination_error`, as a function of the platform
(`macos`: whether the `cfg(target_os = "macos")` block is compiled in),
the remaining stdout items, and the outcome of `Child::wait`. The
synchronization with the stderr thread (`drop(self.stderr_sender.lock())`)
has no effect on the returned value and is modelled separately. -/
def get_termination_error (macos : Bool) (stdoutRemaining : List LineItem)
    (wait : WaitResult) : Error :=
  let content := drainContent stdoutRemaining
  match wait with
  | WaitResult.ok exit_status =>
    if macos ∧ exit_status.signal = some 9 then
      Error.SubprocessTerminated signal9Message
    else
      Error.SubprocessTerminated
        (content ++ "Subprocess terminated with status: " ++ exit_status.display)
  | WaitResult.err wait_error =>
    Error.SubprocessTerminated ("Subprocess didn't start: " ++ wait_error)

/-! ### `recv_line` and `send` -/

/-- `ChildProcess::recv_line`. `self.stdout.next()` yields the next item;
`None` (exhausted iterator) is turned into `get_termination_error` by
`ok_or_else` and the outer `?`; an `Err` item is converted by the inner
`?` via `From<io::Error>`. Returns the result together with the updated
supervisor state. The wait outcome used by the diagnosis is an input
(the OS delivers it when `get_termination_error` calls `wait`). -/
def recv_line (macos : Bool) (cp : ChildProcess) (wait : WaitResult) :
    Except Error String × ChildProcess :=
  match cp.stdout with
  | [] =>
    (Except.error (get_termination_error macos [] wait),
     { cp with stdout := [] })
  | LineItem.ok line :: rest => (Except.ok line, { cp with stdout := rest })
  | LineItem.err e :: rest => (Except.error (ioErrorToError e), { cp with stdout := rest })

/-- `ChildProcess::send`. The two `self.stdin.as_mut().unwrap()` calls
panic if `stdin` is `none`; a panic is modelled as the result `none`.
The outcomes of `writeln!` and of `flush` (each a `std::io::Result`,
represented with the error's display string) are inputs. A `writeln!`
failure is mapped to `get_termination_error`; a `flush` failure goes
through the plain `?` conversion. -/
def send (macos : Bool) (cp : ChildProcess)
    (writeRes flushRes : Except String Unit) (wait : WaitResult) :
    Option (Except Error Unit) :=
  match cp.stdin with
  | none => none
  | some _ =>
    some (match writeRes with
      | Except.error _ => Except.error (get_termination_error macos cp.stdout wait)
      | Except.ok _ =>
        match flushRes with
        | Except.error e => Except.error (ioErrorToError e)
        | Except.ok _ => Except.ok ())

/-! ### Launcher: `new` and `new_internal` -/

/-- Observable side effects of a launch attempt: how many times
`Command::spawn` was invoked and how many stderr-forwarder threads were
started. -/
structure LaunchTrace where
  spawnAttempts : Nat
  threadsStarted : Nat
  deriving DecidableEq, Repr

/-- `ChildProcess::new_internal`: spawns the stored command. On spawn
failure, `bail!("Failed to run '{:?}': {:?}", ..)` produces an error and
no thread is started. On success, takes the stdout/stderr pipes, spawns
the stderr-forwarder thread, takes the stdin pipe, and assembles the
struct. The spawn outcome is an input. -/
def new_internal (command : Command) (stderr_sender : Nat)
    (spawnResult : Except String RawChild) :
    Except Error ChildProcess × LaunchTrace :=
  match spawnResult with
  | Except.error error =>
    (Except.error (Error.Message ("Failed to run command: " ++ error)),
     { spawnAttempts := 1, threadsStarted := 0 })
  | Except.ok rc =>
    (Except.ok
      { exited := rc.exited, stdout := rc.stdoutItems, stdin := rc.stdinPipe,
        command := command, stderr_sender := stderr_sender },
     { spawnAttempts := 1, threadsStarted := 1 })

/-- The self-identifying marker environment variable name. Modelled from
the spec: `runtime::EVCXR_IS_RUNTIME_VAR` is defined in `runtime.rs`,
outside the analysed sources; the spec describes it as the marker this
component sets on children and checks in its own environment. -/
def EVCXR_IS_RUNTIME_VAR : String := "EVCXR_IS_RUNTIME"

/-- The environment mutation `new` applies to the command before
spawning: the runtime marker and `RUST_BACKTRACE=1`. (`new` also
requests piped stdin/stdout/stderr; pipedness shows up in the model as
the `RawChild` pipes the spawn yields.) -/
def configuredCommand (c : Command) : Command :=
  { c with env := c.env ++ [(EVCXR_IS_RUNTIME_VAR, "1"), ("RUST_BACKTRACE", "1")] }

/-- `ChildProcess::new`: first checks whether the *current* process
environment carries the runtime marker (`envHasMarker`); if so it bails
immediately — no spawn attempt, no thread. Otherwise it configures the
command and delegates to `new_internal`. -/
def new (envHasMarker : Bool) (command : Command) (stderr_sender : Nat)
    (spawnResult : Except String RawChild) :
    Except Error ChildProcess × LaunchTrace :=
  if envHasMarker then
    (Except.error (Error.Message "Our current binary doesn't call runtime_hook()"),
     { spawnAttempts := 0, threadsStarted := 0 })
  else
    new_internal (configuredCommand command) stderr_sender spawnResult

/-! ### `restart` and `Drop` -/

/-- Actions `restart` may take on the old process. -/
inductive RestartEvent where
  | kill
  | reap
  deriving DecidableEq, Repr

/-- `Child::try_wait` on a valid child handle, per its OS contract:
`Ok(Some(status))` if the child has already exited, `Ok(None)` if it is
still running. -/
def try_wait (cp : ChildProcess) : Except String (Option ExitStatus) :=
  Except.ok cp.exited

/-- `ChildProcess::restart`: if `try_wait` reports the process still
running (`Ok(None)`), kill it and wait for it to be reaped; then spawn
again via `new_internal` with the same stored command `Arc` and the same
stderr sink `Arc`. `envHasMarker` is the state of the current process
environment at restart time; the source never reads it here, so the
definition ignores it. Returns the kill/reap events performed on the old
process together with the launch result. -/
def restart (envHasMarker : Bool) (cp : ChildProcess)
    (spawnResult : Except String RawChild) :
    List RestartEvent × (Except Error ChildProcess × LaunchTrace) :=
  let events :=
    match try_wait cp with
    | Except.ok none => [RestartEvent.kill, RestartEvent.reap]
    | _ => []
  (events, new_internal cp.command cp.stderr_sender spawnResult)

/-- Actions `Drop for ChildProcess` performs, in order. -/
inductive DropEvent where
  | closeStdin
  | waitProcess
  deriving DecidableEq, Repr

/-- `Drop for ChildProcess`: takes (closes) the stdin write end, then
waits for the process; `drop` returns only after the wait returns. Rust
runs this on every exit path on which the value is discarded, including
error paths, so the model is a total function of the state. -/
def dropChild (cp : ChildProcess) : ChildProcess × List DropEvent :=
  ({ cp with stdin := none }, [DropEvent.closeStdin, DropEvent.waitProcess])

/-! ### The stderr forwarder and its synchronization with diagnosis

`new_internal` spawns a thread that first locks `stderr_sender`, then
forwards each stderr line to the sink, then exits (releasing the lock)
when the stream closes. `get_termination_error` starts by locking and
immediately unlocking the same mutex as a completion barrier. The
interleaving of the two threads is modelled as a small transition
system; a schedule is a list of steps, each enabled only when the
corresponding code could run. -/

/-- Who holds the `stderr_sender` mutex. -/
inductive LockOwner where
  | forwarder
  | diagnosis
  deriving DecidableEq, Repr

/-- Program counter of the forwarder thread: spawned but not yet at the
`lock()` call's completion (`start`, with the stderr lines it will read),
holding the lock with the remaining lines to forward (`draining`), or
exited with the lock released (`done`). -/
inductive FwdPC where
  | start : List String → FwdPC
  | draining : List String → FwdPC
  | done : FwdPC
  deriving DecidableEq, Repr

/-- Program counter of the caller's diagnosis routine: not yet invoked
(`idle`), blocked at `stderr_sender.lock()` (`wantLock`), holding the
lock (`locked`), or past the `drop` barrier and proceeding with the rest
of `get_termination_error` (`pastBarrier`). -/
inductive DiagPC where
  | idle
  | wantLock
  | locked
  | pastBarrier
  deriving DecidableEq, Repr

/-- Joint state of the two threads, the mutex, and the sink (the list of
stderr lines delivered so far, in delivery order). -/
structure SyncState where
  lockHeld : Option LockOwner
  fwd : FwdPC
  sink : List String
  diag : DiagPC
  deriving DecidableEq, Repr

/-- State right after `new_internal` returns: the forwarder thread has
been spawned but has not necessarily run yet, the mutex is free, nothing
has been delivered, and no diagnosis is in progress. -/
def initSync (stderrLines : List String) : SyncState :=
  { lockHeld := none, fwd := FwdPC.start stderrLines, sink := [], diag := DiagPC.idle }

/-- The atomic steps either thread can take. -/
inductive SyncStep where
  | fwdAcquire
  | fwdForward
  | fwdExit
  | diagBegin
  | diagAcquire
  | diagRelease
  deriving DecidableEq, Repr

/-- One step of the interleaved execution; `none` when the step is not
enabled in the given state (mutex busy, nothing to forward, wrong pc). -/
def syncStep : SyncStep → SyncState → Option SyncState
  | SyncStep.fwdAcquire, s =>
    match s.fwd, s.lockHeld with
    | FwdPC.start pending, none =>
      some { s with lockHeld := some LockOwner.forwarder, fwd := FwdPC.draining pending }
    | _, _ => none
  | SyncStep.fwdForward, s =>
    match s.fwd with
    | FwdPC.draining (l :: rest) =>
      some { s with sink := s.sink ++ [l], fwd := FwdPC.draining rest }
    | _ => none
  | SyncStep.fwdExit, s =>
    match s.fwd with
    | FwdPC.draining [] => some { s with fwd := FwdPC.done, lockHeld := none }
    | _ => none
  | SyncStep.diagBegin, s =>
    match s.diag with
    | DiagPC.idle => some { s with diag := DiagPC.wantLock }
    | _ => none
  | SyncStep.diagAcquire, s =>
    match s.diag, s.lockHeld with
    | DiagPC.wantLock, none =>
      some { s with lockHeld := some LockOwner.diagnosis, diag := DiagPC.locked }
    | _, _ => none
  | SyncStep.diagRelease, s =>
    match s.diag with
    | DiagPC.locked => some { s with lockHeld := none, diag := DiagPC.pastBarrier }
    | _ => none

/-- Run a schedule from a state; `none` if some step was not enabled. -/
def runSync : List SyncStep → SyncState → Option SyncState
  | [], s => some s
  | st :: rest, s =>
    match syncStep st s with
    | some s2 => runSync rest s2
    | none => none

/-- The stderr lines the forwarder has not yet delivered. -/
def fwdPending : FwdPC → List String
  | FwdPC.start p => p
  | FwdPC.draining p => p
  | FwdPC.done => []

/-! ### Concrete fixtures used by witnesses and counterexamples -/

/-- A concrete launch configuration. -/
def sampleCommand : Command :=
  { argv := ["worker", "--flag"], env := [("K", "V")], cwd := none }

/-- A concrete ordinary exit status. -/
def sampleStatus : ExitStatus := { display := "exit status: 0", signal := none }

/-- A concrete supervisor state with the given remaining stdout items. -/
def sampleChild (stdout : List LineItem) : ChildProcess :=
  { exited := none, stdout := stdout, stdin := some (),
    command := sampleCommand, stderr_sender := 0 }

/-- A concrete successful spawn outcome with piped stdin. -/
def sampleRaw : RawChild :=
  { stdinPipe := some (), stdoutItems := [], exited := none }

/-! ## Helper lemmas -/

/-- Every branch of the diagnosis routine wraps its message in
`Error::SubprocessTerminated`. -/
theorem termination_error_shape (macos : Bool) (items : List LineItem)
    (wait : WaitResult) :
    ∃ msg, get_termination_error macos items wait = Error.SubprocessTerminated msg := by
  cases wait with
  | ok es =>
    by_cases h : macos ∧ es.signal = some 9
    · exact ⟨signal9Message, by simp [get_termination_error, h]⟩
    · exact ⟨drainContent items ++ "Subprocess terminated with status: " ++ es.display,
        by simp [get_termination_error, h]⟩
  | err e => exact ⟨_, rfl⟩

/-- `read_line` semantics on a newline-free stream: everything read so
far plus the rest comes back as one final line. -/
theorem linesAux_no_newline :
    ∀ (s acc : List Char), Char.ofNat 10 ∉ s → acc ++ s ≠ [] →
      linesAux acc s = [⟨acc ++ s⟩] := by
  intro s
  induction s with
  | nil =>
    intro acc _ hne
    rw [List.append_nil] at hne
    have hfalse : acc.isEmpty = false := by
      cases acc with
      | nil => exact absurd rfl hne
      | cons a b => rfl
    simp [linesAux, hfalse]
  | cons c rest ih =>
    intro acc hnin hne
    have hc : ¬ c = Char.ofNat 10 := by
      intro h
      exact hnin (h ▸ List.mem_cons_self c rest)
    have hstep : linesAux acc (c :: rest) = linesAux (acc ++ [c]) rest := by
      simp only [linesAux]
      rw [if_neg (by exact_mod_cast hc)]
    rw [hstep, ih (acc ++ [c]) (fun h => hnin (List.mem_cons_of_mem _ h)) (by simp)]
    simp

/-- Draining a run of `Ok` lines concatenates each line followed by a
newline, in order, with nothing dropped. -/
theorem drainContent_ok (lines : List String) :
    drainContent (lines.map LineItem.ok)
      = lines.foldr (fun l acc => l ++ "\n" ++ acc) "" := by
  induction lines with
  | nil => rfl
  | cons l rest ih => simp [drainContent, ih]

/-- `recv_line` on an exhausted stdout iterator. -/
theorem recv_line_nil (macos : Bool) (cp : ChildProcess) (wait : WaitResult)
    (h : cp.stdout = []) :
    recv_line macos cp wait
      = (Except.error (get_termination_error macos [] wait),
         { cp with stdout := [] }) := by
  obtain ⟨ex, so, si, c, sn⟩ := cp
  cases so with
  | nil => rfl
  | cons a b => simp at h

/-- `recv_line` when the next stdout item is a line. -/
theorem recv_line_cons_ok (macos : Bool) (cp : ChildProcess) (wait : WaitResult)
    (l : String) (rest : List LineItem) (h : cp.stdout = LineItem.ok l :: rest) :
    recv_line macos cp wait = (Except.ok l, { cp with stdout := rest }) := by
  obtain ⟨ex, so, si, c, sn⟩ := cp
  simp only at h
  rw [h]
  rfl

/-- `recv_line` never changes the stdin write end. -/
theorem recv_line_stdin (macos : Bool) (cp : ChildProcess) (wait : WaitResult) :
    (recv_line macos cp wait).2.stdin = cp.stdin := by
  obtain ⟨ex, so, si, c, sn⟩ := cp
  cases so with
  | nil => rfl
  | cons item rest => cases item <;> rfl

/-- Lock-step invariant of the interleaved system: the delivered lines
followed by the forwarder's pending lines always equal the worker's full
stderr output, so lines reach the sink exactly in emission order. -/
theorem syncStep_sink_order (st : SyncStep) (s s' : SyncState)
    (h : syncStep st s = some s') :
    s'.sink ++ fwdPending s'.fwd = s.sink ++ fwdPending s.fwd := by
  cases st with
  | fwdAcquire =>
    cases hf : s.fwd with
    | start pending =>
      cases hl : s.lockHeld with
      | none =>
        simp [syncStep, hf, hl] at h
        subst h
        simp [fwdPending]
      | some o => simp [syncStep, hf, hl] at h
    | draining p => simp [syncStep, hf] at h
    | done => simp [syncStep, hf] at h
  | fwdForward =>
    cases hf : s.fwd with
    | start pending => simp [syncStep, hf] at h
    | draining p =>
      cases p with
      | nil => simp [syncStep, hf] at h
      | cons l rest =>
        simp [syncStep, hf] at h
        subst h
        simp [fwdPending, hf]
    | done => simp [syncStep, hf] at h
  | fwdExit =>
    cases hf : s.fwd with
    | start pending => simp [syncStep, hf] at h
    | draining p =>
      cases p with
      | nil =>
        simp [syncStep, hf] at h
        subst h
        simp [fwdPending, hf]
      | cons l rest => simp [syncStep, hf] at h
    | done => simp [syncStep, hf] at h
  | diagBegin =>
    cases hd : s.diag <;> simp [syncStep, hd] at h <;> subst h <;> rfl
  | diagAcquire =>
    cases hd : s.diag <;> cases hl : s.lockHeld <;> simp [syncStep, hd, hl] at h <;>
      subst h <;> rfl
  | diagRelease =>
    cases hd : s.diag <;> simp [syncStep, hd] at h <;> subst h <;> rfl

/-! ## Claims -/

/-- Claim C1, counterexample: the claim says trailing stdout data without
a newline is never returned as a line once the stream closes. On a closed
stream whose content is the seven bytes of "partial" with no newline,
`recv_line` returns `Ok("partial")` — `BufRead::lines` yields the final
unterminated segment — rather than the claimed `SubprocessTerminated`
error. -/
theorem recv_line_yields_trailing_data_cex :
    (recv_line false (sampleChild (stdoutItemsOfClosedStream "partial"))
        (WaitResult.ok sampleStatus)).1 = Except.ok "partial" := rfl

/-- Claim C1, amended: when the stdout stream closes with trailing data
not terminated by a newline, `recv_line` returns that data as a final
line, and the next `recv_line` call surfaces the `SubprocessTerminated`
termination diagnosis. -/
theorem recv_line_trailing_data (macos : Bool) (cp : ChildProcess) (s : List Char)
    (wait wait2 : WaitResult) (hne : s ≠ []) (hnl : Char.ofNat 10 ∉ s)
    (hcp : cp.stdout = stdoutItemsOfClosedStream ⟨s⟩) :
    (recv_line macos cp wait).1 = Except.ok ⟨s⟩ ∧
    ∃ msg, (recv_line macos (recv_line macos cp wait).2 wait2).1
      = Except.error (Error.SubprocessTerminated msg) := by
  have hitems : cp.stdout = [LineItem.ok ⟨s⟩] := by
    rw [hcp]
    simp only [stdoutItemsOfClosedStream, linesOfClosedStream]
    rw [show String.toList ⟨s⟩ = s from rfl,
      linesAux_no_newline s [] hnl (by simpa using hne)]
    simp
  have h1 := recv_line_cons_ok macos cp wait ⟨s⟩ [] hitems
  refine ⟨by rw [h1], ?_⟩
  have h2 : (recv_line macos cp wait).2.stdout = [] := by rw [h1]
  obtain ⟨msg, hmsg⟩ := termination_error_shape macos [] wait2
  refine ⟨msg, ?_⟩
  rw [recv_line_nil macos _ wait2 h2, hmsg]

/-- Witness for the amended C1 at the concrete closed stream "tail". -/
theorem recv_line_trailing_data_witness :
    (recv_line false (sampleChild (stdoutItemsOfClosedStream "tail"))
        (WaitResult.ok sampleStatus)).1 = Except.ok "tail" ∧
    ∃ msg, (recv_line false
        (recv_line false (sampleChild (stdoutItemsOfClosedStream "tail"))
          (WaitResult.ok sampleStatus)).2 (WaitResult.ok sampleStatus)).1
      = Except.error (Error.SubprocessTerminated msg) :=
  recv_line_trailing_data false (sampleChild (stdoutItemsOfClosedStream "tail"))
    (String.toList "tail") (WaitResult.ok sampleStatus) (WaitResult.ok sampleStatus)
    (by decide) (by decide) rfl

/-- Claim C2, counterexample: the claim says every failing write *or
flush* in `send` yields the termination diagnosis. A successful write
followed by a failing flush returns the raw converted I/O error (the
`?` on `flush()`), not an `Error::SubprocessTerminated`. -/
theorem send_flush_error_raw_cex :
    send false (sampleChild []) (Except.ok ())
        (Except.error "Broken pipe (os error 32)") (WaitResult.ok sampleStatus)
      = some (Except.error (Error.Message "Broken pipe (os error 32)")) := rfl

/-- Claim C2, amended: a failing `writeln!` in `send` is mapped to the
termination diagnosis (hence a `SubprocessTerminated`), while a failing
`flush` after a successful write is surfaced as the plain converted I/O
error. -/
theorem send_error_translation (macos : Bool) (cp : ChildProcess) (wait : WaitResult)
    (h : cp.stdin = some ()) :
    (∀ e fl, send macos cp (Except.error e) fl wait
        = some (Except.error (get_termination_error macos cp.stdout wait))) ∧
    (∀ e fl, ∃ msg, send macos cp (Except.error e) fl wait
        = some (Except.error (Error.SubprocessTerminated msg))) ∧
    (∀ e, send macos cp (Except.ok ()) (Except.error e) wait
        = some (Except.error (Error.Message e))) := by
  obtain ⟨ex, so, si, c, sn⟩ := cp
  simp only at h
  subst h
  refine ⟨fun e fl => rfl, fun e fl => ?_, fun e => rfl⟩
  obtain ⟨msg, hmsg⟩ := termination_error_shape macos so wait
  refine ⟨msg, ?_⟩
  show some (Except.error (get_termination_error macos so wait)) = _
  rw [hmsg]

/-- Witness for the amended C2 at a concrete failing write. -/
theorem send_error_translation_witness :
    send false (sampleChild []) (Except.error "Broken pipe (os error 32)")
        (Except.ok ()) (WaitResult.ok sampleStatus)
      = some (Except.error (get_termination_error false (sampleChild []).stdout
          (WaitResult.ok sampleStatus))) :=
  (send_error_translation false (sampleChild []) (WaitResult.ok sampleStatus) rfl).1
    "Broken pipe (os error 32)" (Except.ok ())

/-- Claim C3: when the stdout line sequence is exhausted, `recv_line`
returns an error obtained from the termination diagnosis, and the
diagnosis yields an `Error::SubprocessTerminated(message)` in every
branch (wait success, known fatal signal, wait failure) — never a bare
OS error. -/
theorem recv_line_exhausted_diagnosis (macos : Bool) (cp : ChildProcess)
    (wait : WaitResult) (h : cp.stdout = []) :
    (∃ msg, (recv_line macos cp wait).1
        = Except.error (Error.SubprocessTerminated msg)) ∧
    (∀ (items : List LineItem) (w : WaitResult),
      ∃ msg, get_termination_error macos items w = Error.SubprocessTerminated msg) := by
  constructor
  · obtain ⟨msg, hmsg⟩ := termination_error_shape macos [] wait
    refine ⟨msg, ?_⟩
    rw [recv_line_nil macos cp wait h, hmsg]
  · exact fun items w => termination_error_shape macos items w

/-- Witness for C3 at a concrete exhausted stream. -/
theorem recv_line_exhausted_diagnosis_witness :
    ∃ msg, (recv_line false (sampleChild []) (WaitResult.ok sampleStatus)).1
      = Except.error (Error.SubprocessTerminated msg) :=
  (recv_line_exhausted_diagnosis false (sampleChild []) (WaitResult.ok sampleStatus)
    rfl).1

/-- Claim C4: `restart` kills the current process and waits for it to be
reaped exactly when the process has not already exited, and spawns the
replacement from the identical stored command and the identical stderr
sink. -/
theorem restart_kill_iff_running_same_config (env : Bool) (cp : ChildProcess)
    (sp : Except String RawChild) :
    ((restart env cp sp).1 = [RestartEvent.kill, RestartEvent.reap] ↔ cp.exited = none) ∧
    (∀ rc, sp = Except.ok rc →
      (restart env cp sp).2.1 = Except.ok
        { exited := rc.exited, stdout := rc.stdoutItems, stdin := rc.stdinPipe,
          command := cp.command, stderr_sender := cp.stderr_sender }) := by
  constructor
  · cases hx : cp.exited with
    | none => simp [restart, try_wait, hx]
    | some es => simp [restart, try_wait, hx]
  · intro rc hrc
    subst hrc
    simp [restart, new_internal]

/-- Witness for C4 at a concrete running process and successful spawn. -/
theorem restart_kill_iff_running_same_config_witness :
    (restart true (sampleChild []) (Except.ok sampleRaw)).1
        = [RestartEvent.kill, RestartEvent.reap] ∧
    (restart true (sampleChild []) (Except.ok sampleRaw)).2.1
        = Except.ok
            { exited := sampleRaw.exited, stdout := sampleRaw.stdoutItems,
              stdin := sampleRaw.stdinPipe, command := (sampleChild []).command,
              stderr_sender := (sampleChild []).stderr_sender } := by
  have h := restart_kill_iff_running_same_config true (sampleChild []) (Except.ok sampleRaw)
  exact ⟨h.1.mpr rfl, h.2 sampleRaw rfl⟩

/-- Claim C5: constructing a `ChildProcess` while the current process
environment carries the runtime marker fails immediately with the
recursive-launch error, with zero spawn attempts and zero forwarder
threads started. -/
theorem new_with_marker_rejects (command : Command) (sink : Nat)
    (sp : Except String RawChild) :
    new true command sink sp
      = (Except.error (Error.Message "Our current binary doesn't call runtime_hook()"),
         { spawnAttempts := 0, threadsStarted := 0 }) := rfl

/-- Claim C6: when the wait succeeds and the platform signal check does
not apply, the diagnosis message is all remaining buffered stdout lines,
each followed by a newline and none dropped, followed by the exit
status; when the wait fails, the message embeds the wait error in a
"Subprocess didn't start" description. -/
theorem termination_message_content (macos : Bool) (lines : List String)
    (es : ExitStatus) (werr : String) (items : List LineItem)
    (h9 : macos = false ∨ es.signal ≠ some 9) :
    get_termination_error macos (lines.map LineItem.ok) (WaitResult.ok es)
      = Error.SubprocessTerminated
          ((lines.foldr (fun l acc => l ++ "\n" ++ acc) "")
            ++ "Subprocess terminated with status: " ++ es.display) ∧
    get_termination_error macos items (WaitResult.err werr)
      = Error.SubprocessTerminated ("Subprocess didn't start: " ++ werr) := by
  constructor
  · have hno : ¬ (macos = true ∧ es.signal = some 9) := by
      rcases h9 with h | h
      · intro hc
        rw [h] at hc
        exact absurd hc.1 (by simp)
      · intro hc
        exact h hc.2
    simp [get_termination_error, hno, drainContent_ok]
  · rfl

/-- Witness for C6 at one buffered line, an ordinary exit status, and a
concrete wait error. -/
theorem termination_message_content_witness :
    get_termination_error false (["diag"].map LineItem.ok)
        (WaitResult.ok { display := "exit status: 1", signal := none })
      = Error.SubprocessTerminated
          ((["diag"].foldr (fun l acc => l ++ "\n" ++ acc) "")
            ++ "Subprocess terminated with status: " ++ "exit status: 1") ∧
    get_termination_error false [] (WaitResult.err "No child processes")
      = Error.SubprocessTerminated
          ("Subprocess didn't start: " ++ "No child processes") :=
  termination_message_content false ["diag"]
    { display := "exit status: 1", signal := none } "No child processes" []
    (Or.inl rfl)

/-- Claim C7: teardown closes the stdin write end first, waits for the
process afterwards, and returns only once the wait has (the wait is the
final event); `drop` is a total function of the supervisor state, so this
happens on every path on which the supervisor is discarded. -/
theorem drop_closes_stdin_then_waits (cp : ChildProcess) :
    (dropChild cp).2 = [DropEvent.closeStdin, DropEvent.waitProcess] ∧
    (dropChild cp).1.stdin = none ∧
    (dropChild cp).2.head? = some DropEvent.closeStdin ∧
    (dropChild cp).2.getLast? = some DropEvent.waitProcess :=
  ⟨rfl, rfl, rfl, rfl⟩

/-- Claim C8: the stdin write end stays present across `recv_line`, a
`send` on a state with stdin present cannot hit the `unwrap` panic,
construction from a piped spawn stores a present stdin, and only `drop`
sets it to `none`. -/
theorem stdin_some_outside_drop (macos : Bool) (cp : ChildProcess)
    (wait : WaitResult) (wr fl : Except String Unit) (h : cp.stdin = some ()) :
    (recv_line macos cp wait).2.stdin = some () ∧
    (send macos cp wr fl wait).isSome ∧
    (∀ (c : Command) (sink : Nat) (rc : RawChild) (cp' : ChildProcess),
        rc.stdinPipe = some () →
        (new_internal c sink (Except.ok rc)).1 = Except.ok cp' →
        cp'.stdin = some ()) ∧
    (dropChild cp).1.stdin = none := by
  refine ⟨?_, ?_, ?_, rfl⟩
  · rw [recv_line_stdin, h]
  · obtain ⟨ex, so, si, c, sn⟩ := cp
    simp only at h
    subst h
    rfl
  · intro c sink rc cp' hp hok
    have h2 : Except.ok (ε := Error)
        { exited := rc.exited, stdout := rc.stdoutItems, stdin := rc.stdinPipe,
          command := c, stderr_sender := sink } = Except.ok cp' := hok
    injection h2 with h3
    rw [← h3]
    exact hp

/-- Witness for C8 at a concrete live supervisor. -/
theorem stdin_some_outside_drop_witness :
    (recv_line false (sampleChild []) (WaitResult.ok sampleStatus)).2.stdin = some () ∧
    (send false (sampleChild []) (Except.ok ()) (Except.ok ())
      (WaitResult.ok sampleStatus)).isSome ∧
    (dropChild (sampleChild [])).1.stdin = none := by
  have h := stdin_some_outside_drop false (sampleChild []) (WaitResult.ok sampleStatus)
    (Except.ok ()) (Except.ok ()) rfl
  exact ⟨h.1, h.2.1, h.2.2.2⟩

/-- Claim C9 (bug evidence): the completion barrier in
`get_termination_error` does not always wait for the forwarder. In the
schedule where the diagnosis routine reaches the `stderr_sender` lock
before the freshly spawned forwarder thread has acquired it, the
diagnosis acquires and releases the free mutex and proceeds past the
barrier while the forwarder has delivered nothing: from the post-spawn
state with worker stderr lines "err1", "err2", the diagnosis ends past
the barrier with an empty sink and the forwarder still at its start. -/
theorem diagnosis_barrier_race :
    runSync [SyncStep.diagBegin, SyncStep.diagAcquire, SyncStep.diagRelease]
        (initSync ["err1", "err2"])
      = some
          { lockHeld := none, fwd := FwdPC.start ["err1", "err2"],
            sink := [], diag := DiagPC.pastBarrier } := rfl

/-- Claim C10: `restart` never consults the marker environment variable:
its result is the same whether or not the marker is present at restart
time, it always makes exactly one spawn attempt, a successful spawn
yields a new supervisor even with the marker present — whereas at
construction the marker forces zero spawn attempts. -/
theorem restart_no_marker_check (cp : ChildProcess) (sp : Except String RawChild) :
    restart true cp sp = restart false cp sp ∧
    (restart true cp sp).2.2.spawnAttempts = 1 ∧
    (∀ rc, sp = Except.ok rc →
      ∃ cp', (restart true cp sp).2.1 = Except.ok cp') ∧
    (∀ (c : Command) (sink : Nat), (new true c sink sp).2.spawnAttempts = 0) := by
  refine ⟨rfl, ?_, ?_, fun c sink => rfl⟩
  · cases sp with
    | error e => rfl
    | ok rc => rfl
  · intro rc hrc
    subst hrc
    exact ⟨_, rfl⟩

/-- Witness for C10 at a concrete supervisor whose environment gained the
marker, with a successful replacement spawn. -/
theorem restart_no_marker_check_witness :
    restart true (sampleChild []) (Except.ok sampleRaw)
        = restart false (sampleChild []) (Except.ok sampleRaw) ∧
    (restart true (sampleChild []) (Except.ok sampleRaw)).2.2.spawnAttempts = 1 ∧
    ∃ cp', (restart true (sampleChild []) (Except.ok sampleRaw)).2.1
        = Except.ok cp' := by
  have h := restart_no_marker_check (sampleChild []) (Except.ok sampleRaw)
  exact ⟨h.1, h.2.1, h.2.2.1 sampleRaw rfl⟩

end ChildProcessModel
